import Mathlib

set_option maxRecDepth 4096
set_option exponentiation.threshold 1100

/-!
Shallow embedding of the TFG instrument-acquisition engine
(`src/python/Pr100.py`, `src/python/medicion360.py`, `src/python/Cambiar_freq.py`).

Numeric readings are modelled as rationals (`ℚ`): the Python code only ever
produces finite decimal numerals from its regex/`float` parsing paths, so every
value reaching the arithmetic and the formatting code is a finite decimal,
which rationals represent exactly.  Byte streams are modelled as `List Nat`
(byte values), fallible operations as `Option`/`Except`, and the acquisition
loops as recursion over a list of per-cycle environments (the external world's
inputs to each cycle: stop flag, log-file existence, and the raw instrument
responses, where `none` stands for a sub-query that raised).

Rational arithmetic is written through `mkRat`-based helpers (`qAdd`, `qSub`,
`qNeg`, `qDivNat`) that compute on numerator/denominator; they are proved
equal to the field operations of `ℚ` by the bridge lemmas below, so concrete
runs evaluate inside the kernel while abstract reasoning uses the usual
algebra.
-/

namespace TFG

/-! ### Reducible rational arithmetic -/

/-- Addition on `ℚ` computed on numerator/denominator; equal to `+`. -/
def qAdd (a b : ℚ) : ℚ := mkRat (a.num * b.den + b.num * a.den) (a.den * b.den)

/-- Subtraction on `ℚ` computed on numerator/denominator; equal to `-`. -/
def qSub (a b : ℚ) : ℚ := mkRat (a.num * b.den - b.num * a.den) (a.den * b.den)

/-- Negation on `ℚ` computed on the numerator; equal to `-·`. -/
def qNeg (a : ℚ) : ℚ := mkRat (-a.num) a.den

/-- Division of a rational by a natural number; equal to `a / n`. -/
def qDivNat (a : ℚ) (n : Nat) : ℚ := mkRat a.num (a.den * n)

/-! ### Character and string helpers (kernel-reducible) -/

/-- ASCII decimal digit test (`\d` of the Python regexes). -/
def isDigitChar (c : Char) : Bool := 48 ≤ c.toNat && c.toNat ≤ 57

/-- Whitespace as stripped by Python `str.strip()`. -/
def isSpaceChar (c : Char) : Bool :=
  c.toNat = 32 || c.toNat = 9 || c.toNat = 10 || c.toNat = 13 ||
  c.toNat = 11 || c.toNat = 12

/-- `str.strip()` on a character list. -/
def trimChars (cs : List Char) : List Char :=
  ((cs.dropWhile isSpaceChar).reverse.dropWhile isSpaceChar).reverse

/-- `s.split(",")` on a character list (separator is the single comma). -/
def splitComma : List Char → List (List Char)
  | [] => [[]]
  | c :: rest =>
      match splitComma rest with
      | [] => [[]]
      | g :: gs => if c = ',' then [] :: g :: gs else (c :: g) :: gs

/-- Value of a list of decimal digit characters, most significant first. -/
def digitsToNat (ds : List Char) : Nat :=
  ds.foldl (fun a c => a * 10 + (c.toNat - 48)) 0

/-- ASCII bytes of a string. -/
def strBytes (s : String) : List Nat := s.toList.map Char.toNat

/-- Lowercase an ASCII letter code. -/
def lowerCode (n : Nat) : Nat := if 65 ≤ n ∧ n ≤ 90 then n + 32 else n

/-! ### Response parsers -/

/-- Model of Python `float(s)` restricted to the finite decimal grammar
`[+-]? (digits [. digits?] | . digits)` with surrounding whitespace
stripped; any other string is `none` (the raising path).  This restricted
form backs the position parser, whose claims only distinguish tokens
`float` rejects outright; the full grammar — exponents, underscore
numerals, infinities, NaN and the conversion's overflow/underflow — is
modelled below by `pyFloatValue?` for the cadence controller, whose
positivity guard depends on it. -/
def pyFloat? (s : String) : Option ℚ :=
  let cs := trimChars s.toList
  let signRest : Bool × List Char :=
    match cs with
    | '-' :: r => (true, r)
    | '+' :: r => (false, r)
    | r => (false, r)
  let neg := signRest.1
  let body := signRest.2
  let ds := body.takeWhile isDigitChar
  let rest := body.dropWhile isDigitChar
  let mag? : Option ℚ :=
    match rest with
    | [] => if ds.isEmpty then none else some (mkRat (digitsToNat ds) 1)
    | '.' :: r =>
        if r.all isDigitChar && !(ds.isEmpty && r.isEmpty) then
          some (qAdd (mkRat (digitsToNat ds) 1)
                     (qDivNat (mkRat (digitsToNat r) 1) (10 ^ r.length)))
        else none
    | _ => none
  mag?.map (fun m => if neg then qNeg m else m)

/-- One attempt of the regex `-?\d+(?:\.\d+)?` anchored at the head of the
character list (greedy digit runs, optional fraction group). -/
def tryFloatAt (cs : List Char) : Option ℚ :=
  let signRest : Bool × List Char :=
    match cs with
    | '-' :: r => (true, r)
    | r => (false, r)
  let neg := signRest.1
  let body := signRest.2
  let ds := body.takeWhile isDigitChar
  let rest := body.dropWhile isDigitChar
  if ds.isEmpty then none
  else
    let intval : ℚ := mkRat (digitsToNat ds) 1
    let v : ℚ :=
      match rest with
      | '.' :: r =>
          let fs := r.takeWhile isDigitChar
          if fs.isEmpty then intval
          else qAdd intval (qDivNat (mkRat (digitsToNat fs) 1) (10 ^ fs.length))
      | _ => intval
    some (if neg then qNeg v else v)

/-- Leftmost-match scan of `re.search`: try each start position left to
right. -/
def scanFloat : List Char → Option ℚ
  | [] => none
  | c :: rest =>
      match tryFloatAt (c :: rest) with
      | some v => some v
      | none => scanFloat rest

/-- `extraer_primer_float` (Pr100.py / medicion360.py): first match of
`re.search(r'(-?\d+(?:\.\d+)?)', s)` as a rational, `None` if absent or the
string is empty. -/
def extraer_primer_float (s : String) : Option ℚ :=
  if s = "" then none else scanFloat s.toList

/-- `dbuv_to_dbm` (Pr100.py / medicion360.py): dBm = dBµV − 107 (50 Ω). -/
def dbuv_to_dbm (dbuv : ℚ) : ℚ := qSub dbuv 107

/-! ### Full Python float values (`float()` with its special forms) -/

/-- A Python float as observed by the cadence guard: a finite value (kept as
an exact rational), a signed infinity, or NaN. -/
inductive PyFloat
  | fin (q : ℚ)
  | inf (neg : Bool)
  | nan
deriving DecidableEq

/-- Python's `v > 0` on a float: positive finite values and `+inf`; `false`
on `-inf`, non-positive values and NaN. -/
def pyPos : PyFloat → Bool
  | .fin q => decide (0 < q)
  | .inf neg => !neg
  | .nan => false

/-- Python numeric-literal digit run `digit (('_')? digit)*` as accepted by
`float()` in the integer, fraction and exponent parts: returns the digit
characters with the separating underscores removed, plus the unconsumed
rest.  Fuel-driven; any fuel ≥ the list length behaves the same. -/
def digitRunAux : Nat → List Char → List Char × List Char
  | 0, cs => ([], cs)
  | fuel + 1, cs =>
      match cs with
      | [] => ([], [])
      | c :: rest =>
          if isDigitChar c then
            match rest with
            | '_' :: d :: rest2 =>
                if isDigitChar d then
                  let r := digitRunAux fuel (d :: rest2)
                  (c :: r.1, r.2)
                else ([c], rest)
            | _ =>
                let r := digitRunAux fuel rest
                (c :: r.1, r.2)
          else ([], cs)

/-- The decimal-numeral part of the `float()` grammar, sign already removed:
`digits [. digits?] [exp]` or `. digits [exp]` with `exp = (e|E) [+|-]
digits`, digit runs allowing single underscores between digits; the exact
rational value (the caller applies the double conversion's clamping). -/
def pyNumeric? (cs : List Char) : Option ℚ :=
  let fuel := cs.length + 1
  let ir := digitRunAux fuel cs
  let ip := ir.1
  let fr : List Char × List Char :=
    match ir.2 with
    | '.' :: rf => digitRunAux fuel rf
    | _ => ([], ir.2)
  let fs := fr.1
  let afterFrac := fr.2
  if ip.isEmpty && fs.isEmpty then none
  else
    let mantNum : Nat := digitsToNat ip * 10 ^ fs.length + digitsToNat fs
    let mantDen : Nat := 10 ^ fs.length
    match afterFrac with
    | [] => some (mkRat mantNum mantDen)
    | e :: re =>
        if lowerCode e.toNat = 101 then
          let esign : Bool × List Char :=
            match re with
            | '-' :: r2 => (true, r2)
            | '+' :: r2 => (false, r2)
            | r2 => (false, r2)
          let ep := digitRunAux fuel esign.2
          if ep.1.isEmpty || !ep.2.isEmpty then none
          else if esign.1 then some (mkRat mantNum (mantDen * 10 ^ digitsToNat ep.1))
          else some (mkRat (mantNum * 10 ^ digitsToNat ep.1) mantDen)
        else none

/-- The overflow/underflow clamping of CPython's decimal-string → double
conversion: magnitudes at or beyond the IEEE-754 rounding boundary
`2^1024 − 2^970` become infinite, and nonzero magnitudes at or below
`2^-1075` round to zero.  In-range values are kept exact rather than
rounded to 53 bits: the cadence guard inspects only the sign and zero-ness
of the value, which in-range rounding never changes. -/
def clampDouble (q : ℚ) : PyFloat :=
  if q.num = 0 then .fin 0
  else if ((2 : ℕ) ^ 1024 - 2 ^ 970) * q.den ≤ q.num.natAbs then
    .inf (q.num < 0)
  else if q.num.natAbs * 2 ^ 1075 ≤ q.den then .fin 0
  else .fin q

/-- Model of Python `float(s)` over its full ASCII grammar: whitespace
stripped, optional sign, then case-insensitive `inf`/`infinity`/`nan` or a
decimal numeral with optional fraction, optional exponent and single
underscores between digits, with the conversion's overflow/underflow
clamping.  (CPython's non-ASCII digit and whitespace forms are outside the
model; both channels carry ASCII.) -/
def pyFloatValue? (s : String) : Option PyFloat :=
  let cs := trimChars s.toList
  let signRest : Bool × List Char :=
    match cs with
    | '-' :: r => (true, r)
    | '+' :: r => (false, r)
    | r => (false, r)
  let neg := signRest.1
  let body := signRest.2
  let low := body.map (fun c => lowerCode c.toNat)
  if low = strBytes "inf" ∨ low = strBytes "infinity" then some (.inf neg)
  else if low = strBytes "nan" then some .nan
  else
    match pyNumeric? body with
    | none => none
    | some mag => some (clampDouble (if neg then qNeg mag else mag))

/-! ### Fixed-point formatting (`f"{x:.pf}"`) -/

/-- Round `q * 10^p` to the nearest integer, ties to even — the rounding of
Python's fixed-point `format`, computed on numerator/denominator. -/
def scaledRound (q : ℚ) (p : Nat) : ℤ :=
  let n := q.num * (10 : ℤ) ^ p
  let d : ℤ := q.den
  let f := Int.fdiv n d
  let r2 := 2 * (n - f * d)
  if r2 < d then f else if r2 > d then f + 1 else if f % 2 = 0 then f else f + 1

/-- Model of Python `f"{q:.precf}"` on a finite value: fixed-point rendering
with `prec` fractional digits, ties to even. -/
def fmtFixed (q : ℚ) (prec : Nat) : String :=
  let scaled := scaledRound q prec
  let a := scaled.natAbs
  let ip := a / 10 ^ prec
  let fp := a % 10 ^ prec
  let fps := toString fp
  let fpPad := String.mk (List.replicate (prec - fps.length) '0') ++ fps
  (if scaled < 0 then "-" else "") ++ toString ip ++
    (if prec = 0 then "" else "." ++ fpPad)

/-- Stand-in for Python `f"{x}"` on a float value (`repr`): some non-empty,
comma-free decimal token.  The claims never depend on its exact digits, only
on the field being present, so the rational's own numerals are used. -/
def float_repr (q : ℚ) : String :=
  (if q.num < 0 then "-" else "") ++ toString q.num.natAbs ++
    (if q.den = 1 then "" else "/" ++ toString q.den)

/-! ### GPS position parser (`parse_gps_data`) -/

/-- `[p.strip() for p in s.split(",")]`. -/
def stripParts (s : String) : List String :=
  (splitComma s.toList).map (fun g => String.mk (trimChars g))

/-- Search for the first element satisfying `p`, reporting its absolute index
when counting starts at `i`. -/
def findIdxAux (p : String → Bool) : List String → Nat → Option Nat
  | [], _ => none
  | x :: xs, i => if p x then some i else findIdxAux p xs (i + 1)

/-- `next((i for i,p in enumerate(parts[start:], start=start) if pred p), None)`:
first absolute index `≥ start` whose element satisfies the predicate. -/
def findIdxFrom (p : String → Bool) (l : List String) (start : Nat) : Option Nat :=
  findIdxAux p (l.drop start) start

/-- `p in ("N","S")`. -/
def isNS (p : String) : Bool := p == "N" || p == "S"

/-- `p in ("E","W")`. -/
def isEW (p : String) : Bool := p == "E" || p == "W"

/-- The repeated pattern of `parse_gps_data` after a marker at index `k`:
fail when `k + 3 >= len(parts)`, else `float` the three following tokens
(a failure is the Python `except` path). -/
def gps_triplet (parts : List String) (k : Nat) : Option (ℚ × ℚ × ℚ) :=
  if parts.length ≤ k + 3 then none else
  match pyFloat? (parts.getD (k + 1) ""), pyFloat? (parts.getD (k + 2) ""),
        pyFloat? (parts.getD (k + 3) "") with
  | some a, some b, some c => some (a, b, c)
  | _, _, _ => none

/-- The raw components of a decoded position record: the two hemisphere
tokens and the six DMS floats. -/
structure GpsRaw where
  hns : String
  d1 : ℚ
  m1 : ℚ
  s1 : ℚ
  hew : String
  d2 : ℚ
  m2 : ℚ
  s2 : ℚ
deriving DecidableEq

/-- Component extraction of `parse_gps_data`: hemisphere token and the three
DMS floats for latitude, then the same for longitude searched only after the
latitude's fourth token; any missing index, failed marker search or failed
`float` yields `none` (the Python `except` path). -/
def gps_raw (parts : List String) : Option GpsRaw :=
  match findIdxFrom isNS parts 0 with
  | none => none
  | some i_ns =>
    match gps_triplet parts i_ns with
    | none => none
    | some (d1, m1, s1) =>
      match findIdxFrom isEW parts (i_ns + 4) with
      | none => none
      | some i_ew =>
        match gps_triplet parts i_ew with
        | none => none
        | some (d2, m2, s2) =>
            some ⟨parts.getD i_ns "", d1, m1, s1, parts.getD i_ew "", d2, m2, s2⟩

/-- `d + m/60.0 + s/3600.0`. -/
def dms (d m s : ℚ) : ℚ := qAdd (qAdd d (qDivNat m 60)) (qDivNat s 3600)

/-- Arithmetic half of `parse_gps_data` on the split, stripped parts:
combine the DMS components and negate on `S`/`W`. -/
def parse_gps_parts (parts : List String) : Option ℚ × Option ℚ :=
  match gps_raw parts with
  | none => (none, none)
  | some r =>
      let lat := dms r.d1 r.m1 r.s1
      let lon := dms r.d2 r.m2 r.s2
      (some (if r.hns == "S" then qNeg lat else lat),
       some (if r.hew == "W" then qNeg lon else lon))

/-- `parse_gps_data` (Pr100.py / medicion360.py): decode the PR100
`SYST:GPS:DATA?` DMS record into decimal degrees, `(None, None)` on any
failure. -/
def parse_gps_data (s : String) : Option ℚ × Option ℚ :=
  if s = "" then (none, none) else parse_gps_parts (stripParts s)

/-- The spec's example `SYST:GPS:DATA?` response. -/
def gpsExampleResponse : String := "GPS,1,...,N,48,7,40.33,E,11,36,47.42,..."

/-! ### Block reader (`_scpi_recv_block`) -/

/-- `file.read n` on a fully buffered stream with EOF at the end: up to `n`
bytes from the front, plus the rest of the stream. -/
def readN (stream : List Nat) (n : Nat) : List Nat × List Nat :=
  (stream.take n, stream.drop n)

/-- `int(bs)` on the ASCII bytes of the block-length field: the decimal value
when `bs` is a non-empty run of digits, otherwise a `ValueError` (`none`). -/
def intOfBytes? (bs : List Nat) : Option Nat :=
  if !bs.isEmpty && bs.all (fun b => 48 ≤ b && b ≤ 57) then
    some (bs.foldl (fun a b => a * 10 + (b - 48)) 0)
  else none

/-- Outcomes of `_scpi_recv_block`: the non-block `RuntimeError` branch
(the documented protocol error), the uncaught `ValueError` of an `int()`
conversion, and the connection-closed `RuntimeError` of the payload loop. -/
inductive BlockErr
  | notBlock
  | valueErr
  | closed
deriving DecidableEq

/-- `_scpi_recv_block` (Pr100.py): read one byte expected to be `#`, one
digit giving the length-field width, that many digits giving the payload
length, then exactly that many payload bytes (empty chunk = closed).  On
success, returns the payload and the unconsumed remainder of the stream. -/
def scpi_recv_block (stream : List Nat) : Except BlockErr (List Nat × List Nat) :=
  let (first, s1) := readN stream 1
  if first ≠ [35] then .error .notBlock
  else
    let (nb, s2) := readN s1 1
    match intOfBytes? nb with
    | none => .error .valueErr
    | some ndigits =>
      let (lb, s3) := readN s2 ndigits
      match intOfBytes? lb with
      | none => .error .valueErr
      | some blen =>
        if s3.length < blen then .error .closed
        else .ok (s3.take blen, s3.drop blen)

/-! ### Cadence controller (`PeriodProtocol.datagram_received`) -/

/-- `PeriodProtocol.datagram_received` (Pr100.py) as a state transformer on
the shared period (a Python float): parse the stripped payload with the full
`float` grammar; replace the period when the parsed value compares strictly
positive (an infinite value does — it is positive in the source's `v > 0`);
keep the previous period on a non-positive or NaN value or a parse failure
(the `except` path). -/
def datagram_received (periodo : PyFloat) (payload : String) : PyFloat :=
  match pyFloatValue? payload with
  | some v => if pyPos v then v else periodo
  | none => periodo

/-! ### Frequency change (`enviar_comando_frecuencia`) -/

/-- `re.fullmatch(r"\d+(\.\d+)?", s)`: digits, optionally a dot and more
digits, nothing else. -/
def matchesFreqRegex (s : String) : Bool :=
  let cs := s.toList
  let ds := cs.takeWhile isDigitChar
  let rest := cs.dropWhile isDigitChar
  !ds.isEmpty &&
    match rest with
    | [] => true
    | '.' :: r => !r.isEmpty && r.all isDigitChar
    | _ => false

/-- `str(freq_mhz or "").strip().replace(",", ".")`. -/
def normalizeFreq (s : String) : String :=
  String.mk ((trimChars s.toList).map (fun c => if c = ',' then '.' else c))

/-- The outcome of the single `f.readline()` of Cambiar_freq.py: a decoded
line (possibly empty, when the connection yields EOF or a bare terminator),
or a socket timeout — `readline` on a socket file with a timeout set raises
rather than returning empty. -/
inductive ReadLineResult
  | line (raw : String)
  | timedOut
deriving DecidableEq

/-- The observable outcomes of `enviar_comando_frecuencia`: the `ValueError`
of validation (before any I/O), an uncaught socket timeout that propagates
after the writes, or a returned response; the successful and timed-out
outcomes carry the SCPI lines written, so the validation branch visibly
performs no I/O. -/
inductive FreqResult
  | invalid (msg : String)
  | timeoutError (written : List String)
  | echoed (written : List String) (resp : String)
deriving DecidableEq

/-- `enviar_comando_frecuencia` (Cambiar_freq.py): validate the trimmed,
comma-normalized input against `\d+(\.\d+)?` (raising before any I/O on a
mismatch), write `*CLS`, the frequency set and the `FREQ?` echo query, then
read one line: a timed-out read propagates as an uncaught error; otherwise
the stripped echo line is returned, with the literal `"OK"` standing in for
an empty one. -/
def enviar_comando_frecuencia (freq_mhz : String) (read1 : ReadLineResult) :
    FreqResult :=
  let freq := normalizeFreq freq_mhz
  if matchesFreqRegex freq then
    let written := ["*CLS", "FREQ " ++ freq ++ "MHz", "FREQ?"]
    match read1 with
    | .timedOut => .timeoutError written
    | .line raw =>
        let resp := String.mk (trimChars raw.toList)
        .echoed written (if resp = "" then "OK" else resp)
  else
    .invalid "Frecuencia inválida; usa formato numérico en MHz (ej. 433.92)"

/-! ### Sampling engine: continuous mode (Pr100.py `main`) -/

/-- External inputs to one continuous-mode cycle: the stop event, whether
`Potencia.txt` still exists at the top-of-cycle check, the wall-clock strings,
and the three sub-query results (`none` = the query raised; the handler then
continues with the empty response). -/
structure ContEnv where
  stopSet : Bool
  fileExists : Bool
  fecha : String
  hora : String
  meas : Option String
  gps : Option String
  comp : Option String

/-- Why an acquisition loop stopped consuming cycles. -/
inductive StopReason
  | stopSignal
  | fileDeleted
  | envExhausted
deriving DecidableEq

/-- The six comma-separated fields of a continuous-mode sample line, in the
order of the f-string in Pr100.py: date, time, dBm (`"nan"` token when the
reading is absent), bearing (`f"{az:.1f}"` only when the reading is present
and finite — the `az is not None and math.isfinite(az)` guard — and the
literal `"no directivo"` otherwise), latitude and longitude (empty when
absent). -/
def continuous_fields (fecha hora : String) (dbm : Option ℚ)
    (az : Option PyFloat) (lat lon : Option ℚ) : List String :=
  [fecha, hora,
   match dbm with | none => "nan" | some q => float_repr q,
   match az with
   | some (.fin a) => fmtFixed a 1
   | _ => "no directivo",
   match lat with | none => "" | some v => fmtFixed v 6,
   match lon with | none => "" | some v => fmtFixed v 6]

/-- The body of one continuous-mode cycle after the stop checks: parse the
three sub-responses (an exception is the empty response), convert dBµV to
dBm, and render the one CSV line that is appended.  Under the exact-rational
reading of the regex parse the compass value enters as a finite float; the
field renderer's non-finite branch covers the double-overflow case.  Total
by construction: no exception escapes the cycle. -/
def continuous_cycle (e : ContEnv) : String :=
  let dbuv := extraer_primer_float (e.meas.getD "")
  let dbm := dbuv.map dbuv_to_dbm
  let latlon := parse_gps_data (e.gps.getD "")
  let az := (extraer_primer_float (e.comp.getD "")).map PyFloat.fin
  String.intercalate "," (continuous_fields e.fecha e.hora dbm az latlon.1 latlon.2)

/-- The continuous-mode acquisition loop: at each cycle first the stop event,
then existence of the log file is checked; otherwise the cycle appends its
line and the loop continues.  Returns the appended lines and why the loop
ended (an exhausted environment list stands for a still-running loop). -/
def run_continuous : List ContEnv → List String × StopReason
  | [] => ([], .envExhausted)
  | e :: rest =>
      if e.stopSet then ([], .stopSignal)
      else if e.fileExists = false then ([], .fileDeleted)
      else
        let r := run_continuous rest
        (continuous_cycle e :: r.1, r.2)

/-! ### Sampling engine: sweep mode (medicion360.py `main`) -/

/-- External inputs to one iteration of the sweep-mode initial position wait:
stop event, log-file existence, the GPS query result (`none` = raised), and
whether the `GPS_WAIT_S` budget has elapsed at this iteration's check. -/
structure WaitEnv where
  stopSet : Bool
  fileExists : Bool
  gps : Option String
  timeExceeded : Bool

/-- External inputs to one sweep-mode sampling cycle. -/
structure SweepEnv where
  stopSet : Bool
  fileExists : Bool
  meas : Option String
  comp : Option String

/-- The initial position-fix wait of medicion360.py: poll the GPS query until
a fix, a stop, a file deletion, or the elapsed wait budget; the result is the
fix if one was obtained. -/
def sweep_wait : List WaitEnv → Option (ℚ × ℚ)
  | [] => none
  | e :: rest =>
      if e.stopSet then none
      else if e.fileExists = false then none
      else
        match parse_gps_data (e.gps.getD "") with
        | (some la, some lo) => some (la, lo)
        | _ => if e.timeExceeded then none else sweep_wait rest

/-- The sweep-log header line: `lat,lon` at six decimals when a fix was
obtained, the empty line otherwise.  The write happens unconditionally after
the wait (opening the log in append mode, which recreates it if missing). -/
def sweep_header (fix : Option (ℚ × ℚ)) : String :=
  match fix with
  | some (la, lo) => fmtFixed la 6 ++ "," ++ fmtFixed lo 6
  | none => ""

/-- One sweep-mode cycle body: parse power (dBµV → dBm) and bearing; produce
the `az,dbm` line only when both parsed (rationals are always finite, so the
`math.isfinite` guards of the source are identically true here); otherwise
nothing is written. -/
def sweep_cycle (measResp compResp : String) : Option String :=
  let dbuv := extraer_primer_float measResp
  let dbm := dbuv.map dbuv_to_dbm
  let az := extraer_primer_float compResp
  match az, dbm with
  | some a, some d => some (fmtFixed a 1 ++ "," ++ fmtFixed d 2)
  | _, _ => none

/-- The sweep-mode acquisition loop, with the same stop checks as the
continuous loop; a cycle appends its line only when `sweep_cycle` produced
one. -/
def sweep_loop : List SweepEnv → List String × StopReason
  | [] => ([], .envExhausted)
  | e :: rest =>
      if e.stopSet then ([], .stopSignal)
      else if e.fileExists = false then ([], .fileDeleted)
      else
        let r := sweep_loop rest
        ((sweep_cycle (e.meas.getD "") (e.comp.getD "")).toList ++ r.1, r.2)

/-- A whole sweep run: the initial wait, then the unconditional header write,
then the acquisition loop.  Note the control flow of the source: a file
deletion during the wait only breaks the wait loop; the header write then
recreates the file and the acquisition loop starts anyway. -/
def sweep_run (waits : List WaitEnv) (cycles : List SweepEnv) :
    String × (List String × StopReason) :=
  (sweep_header (sweep_wait waits), sweep_loop cycles)

/-! ### Helper lemmas -/

theorem qAdd_eq (a b : ℚ) : qAdd a b = a + b := by
  have ha : ((a.den : ℚ)) ≠ 0 := by exact_mod_cast (Rat.den_pos a).ne'
  have hb : ((b.den : ℚ)) ≠ 0 := by exact_mod_cast (Rat.den_pos b).ne'
  rw [qAdd, Rat.mkRat_eq_div]
  push_cast
  conv_rhs => rw [← Rat.num_div_den a, ← Rat.num_div_den b]
  field_simp

theorem qSub_eq (a b : ℚ) : qSub a b = a - b := by
  have ha : ((a.den : ℚ)) ≠ 0 := by exact_mod_cast (Rat.den_pos a).ne'
  have hb : ((b.den : ℚ)) ≠ 0 := by exact_mod_cast (Rat.den_pos b).ne'
  rw [qSub, Rat.mkRat_eq_div]
  push_cast
  conv_rhs => rw [← Rat.num_div_den a, ← Rat.num_div_den b]
  field_simp
  ring

theorem qNeg_eq (a : ℚ) : qNeg a = -a := by
  have ha : ((a.den : ℚ)) ≠ 0 := by exact_mod_cast (Rat.den_pos a).ne'
  rw [qNeg, Rat.mkRat_eq_div]
  push_cast
  conv_rhs => rw [← Rat.num_div_den a]
  field_simp

theorem qDivNat_eq (a : ℚ) (n : Nat) : qDivNat a n = a / n := by
  rcases Nat.eq_zero_or_pos n with h | h
  · subst h; simp [qDivNat, Rat.mkRat_eq_div]
  · have ha : ((a.den : ℚ)) ≠ 0 := by exact_mod_cast (Rat.den_pos a).ne'
    have hn : ((n : ℚ)) ≠ 0 := by exact_mod_cast h.ne'
    rw [qDivNat, Rat.mkRat_eq_div]
    push_cast
    conv_rhs => rw [← Rat.num_div_den a]
    field_simp

theorem findIdxAux_eq_none (p : String → Bool) (l : List String) (i : Nat)
    (h : l.all (fun x => !(p x)) = true) : findIdxAux p l i = none := by
  induction l generalizing i with
  | nil => rfl
  | cons x xs ih =>
      simp only [List.all_cons, Bool.and_eq_true, Bool.not_eq_true'] at h
      simp [findIdxAux, h.1, ih _ h.2]

theorem findIdxFrom_eq_none (p : String → Bool) (l : List String) (start : Nat)
    (h : (l.drop start).all (fun x => !(p x)) = true) :
    findIdxFrom p l start = none :=
  findIdxAux_eq_none p (l.drop start) start h

theorem gps_triplet_eq_none (parts : List String) (k : Nat)
    (h : parts.length ≤ k + 3 ∨
      pyFloat? (parts.getD (k + 1) "") = none ∨
      pyFloat? (parts.getD (k + 2) "") = none ∨
      pyFloat? (parts.getD (k + 3) "") = none) :
    gps_triplet parts k = none := by
  unfold gps_triplet
  by_cases hlen : parts.length ≤ k + 3
  · rw [if_pos hlen]
  · rw [if_neg hlen]
    rcases h with h | h | h | h
    · exact absurd h hlen
    · cases h2 : pyFloat? (parts.getD (k + 2) "") <;>
        cases h3 : pyFloat? (parts.getD (k + 3) "") <;> simp only [h, h2, h3]
    · cases h1 : pyFloat? (parts.getD (k + 1) "") <;>
        cases h3 : pyFloat? (parts.getD (k + 3) "") <;> simp only [h, h1, h3]
    · cases h1 : pyFloat? (parts.getD (k + 1) "") <;>
        cases h2 : pyFloat? (parts.getD (k + 2) "") <;> simp only [h, h1, h2]

theorem parse_gps_data_of_raw_none (s : String)
    (h : gps_raw (stripParts s) = none) : parse_gps_data s = (none, none) := by
  unfold parse_gps_data
  split
  · rfl
  · unfold parse_gps_parts
    rw [h]

theorem run_continuous_cons (e : ContEnv) (rest : List ContEnv) :
    run_continuous (e :: rest) =
      if e.stopSet then ([], .stopSignal)
      else if e.fileExists = false then ([], .fileDeleted)
      else (continuous_cycle e :: (run_continuous rest).1, (run_continuous rest).2) :=
  rfl

theorem sweep_loop_cons (e : SweepEnv) (rest : List SweepEnv) :
    sweep_loop (e :: rest) =
      if e.stopSet then ([], .stopSignal)
      else if e.fileExists = false then ([], .fileDeleted)
      else ((sweep_cycle (e.meas.getD "") (e.comp.getD "")).toList ++ (sweep_loop rest).1,
            (sweep_loop rest).2) :=
  rfl

/-! ### Claims -/

/-- C7: the shared cadence stays strictly positive (in the source's `v > 0`
sense, where a positive infinity also counts) under every control datagram:
a payload parsing to a positive float — `"2.5"`, and equally the exponent
form `"1e3"` — replaces it, while a non-positive (`"0"`, `"-3"`), NaN or
unparsable payload leaves the previous cadence unchanged. -/
theorem C7_cadence_strictly_positive (p : PyFloat) (hp : pyPos p = true) :
    (∀ payload, pyPos (datagram_received p payload) = true) ∧
    (∀ payload v, pyFloatValue? payload = some v → pyPos v = true →
      datagram_received p payload = v) ∧
    (∀ payload, pyFloatValue? payload = none → datagram_received p payload = p) ∧
    (∀ payload v, pyFloatValue? payload = some v → pyPos v = false →
      datagram_received p payload = p) ∧
    datagram_received p "2.5" = .fin (mkRat 5 2) ∧
    datagram_received p "1e3" = .fin 1000 ∧
    datagram_received p "0" = p ∧
    datagram_received p "-3" = p := by
  have h25 : pyFloatValue? "2.5" = some (.fin (mkRat 5 2)) := by decide
  have h13 : pyFloatValue? "1e3" = some (.fin 1000) := by decide
  have h0 : pyFloatValue? "0" = some (.fin 0) := by decide
  have hm3 : pyFloatValue? "-3" = some (.fin (-3)) := by decide
  refine ⟨?_, ?_, ?_, ?_, ?_, ?_, ?_, ?_⟩
  · intro payload
    unfold datagram_received
    cases h : pyFloatValue? payload with
    | none => exact hp
    | some v =>
        cases hv : pyPos v
        · simpa [hv] using hp
        · simp [hv]
  · intro payload v h hv
    unfold datagram_received
    rw [h]
    simp [hv]
  · intro payload h
    unfold datagram_received
    rw [h]
  · intro payload v h hv
    unfold datagram_received
    rw [h]
    simp [hv]
  · unfold datagram_received
    rw [h25]
    simp [show pyPos (.fin (mkRat 5 2)) = true from by decide]
  · unfold datagram_received
    rw [h13]
    simp [show pyPos (.fin 1000) = true from by decide]
  · unfold datagram_received
    rw [h0]
    simp [show pyPos (.fin 0) = false from by decide]
  · unfold datagram_received
    rw [hm3]
    simp [show pyPos (.fin (-3 : ℚ)) = false from by decide]

/-- Witness for C7 at cadence 1.0: payload `"0"` leaves the cadence at 1. -/
theorem C7_witness : datagram_received (.fin 1) "0" = .fin 1 :=
  (C7_cadence_strictly_positive (.fin 1) (by decide)).2.2.2.2.2.2.1

/-- C9 counterexample: on the valid input `"433.92"`, a read that times out
makes the operation propagate the uncaught socket timeout error after the
three writes — it does not return the `"OK"` sentinel (or anything at
all). -/
theorem C9_counterexample :
    enviar_comando_frecuencia "433.92" .timedOut =
      .timeoutError ["*CLS", "FREQ 433.92MHz", "FREQ?"] ∧
    FreqResult.timeoutError ["*CLS", "FREQ 433.92MHz", "FREQ?"] ≠
      FreqResult.echoed ["*CLS", "FREQ 433.92MHz", "FREQ?"] "OK" := by
  exact ⟨by rfl, by decide⟩

/-- C9 (amended): the frequency-change operation fails with the validation
error, with no I/O performed, exactly when the trimmed, comma-normalized
input does not match `\d+(\.\d+)?`; on valid input it writes the three SCPI
lines and then returns the stripped echoed line — the literal `"OK"` when
the echo line read is empty — while a read that times out instead lets the
socket timeout error propagate uncaught. -/
theorem C9_freq_validation (freq : String) (read1 : ReadLineResult) :
    (matchesFreqRegex (normalizeFreq freq) = false →
      enviar_comando_frecuencia freq read1 =
        .invalid "Frecuencia inválida; usa formato numérico en MHz (ej. 433.92)") ∧
    (matchesFreqRegex (normalizeFreq freq) = true →
      (∀ raw, read1 = .line raw →
        enviar_comando_frecuencia freq read1 =
          .echoed ["*CLS", "FREQ " ++ normalizeFreq freq ++ "MHz", "FREQ?"]
            (if String.mk (trimChars raw.toList) = "" then "OK"
             else String.mk (trimChars raw.toList))) ∧
      (read1 = .timedOut →
        enviar_comando_frecuencia freq read1 =
          .timeoutError ["*CLS", "FREQ " ++ normalizeFreq freq ++ "MHz", "FREQ?"])) := by
  constructor
  · intro h
    simp only [enviar_comando_frecuencia]
    rw [h]
    simp
  · intro h
    constructor
    · intro raw hr
      subst hr
      simp only [enviar_comando_frecuencia]
      rw [h]
      simp
    · intro hr
      subst hr
      simp only [enviar_comando_frecuencia]
      rw [h]
      simp

/-- Witness for C9: `"433,92"` normalizes to `"433.92"`, passes validation,
and with an empty echo line the call returns the `"OK"` sentinel. -/
theorem C9_witness :
    matchesFreqRegex (normalizeFreq "433,92") = true ∧
    enviar_comando_frecuencia "433,92" (.line "") =
      .echoed ["*CLS", "FREQ 433.92MHz", "FREQ?"] "OK" := by
  refine ⟨by decide, ?_⟩
  have h := ((C9_freq_validation "433,92" (.line "")).2 (by decide)).1 "" rfl
  exact h.trans (by rfl)

/-- C10: on a stream whose byte after `#` is the digit `0`, the block reader
hits `int` of a zero-byte read and fails with the uncaught `ValueError`, not
with data and not with the documented not-a-block protocol error — whatever
bytes follow. -/
theorem C10_block_reader_hash_zero (rest : List Nat) :
    scpi_recv_block (35 :: 48 :: rest) = .error .valueErr ∧
    BlockErr.valueErr ≠ BlockErr.notBlock := by
  refine ⟨?_, by decide⟩
  unfold scpi_recv_block readN
  simp [intOfBytes?]

/-- C2 counterexample: the stream `b"#212HELLOWORLD!"` of the claim carries
only 11 payload bytes after the `#212` framing, so the reader exhausts the
stream and fails with the connection-closed error instead of decoding
`b"HELLOWORLD!"`; the claimed length 12 is also not that payload's length. -/
theorem C2_counterexample :
    scpi_recv_block (strBytes "#212HELLOWORLD!") = .error .closed ∧
    (strBytes "HELLOWORLD!").length = 11 := by
  exact ⟨by rfl, by decide⟩

/-- C2 (amended): for a stream framed as `#`, one digit `n`, `n` digits
giving a length `len`, then at least `len` payload bytes, the block reader
returns exactly the first `len` payload bytes and consumes no byte beyond
them; the concrete example with a 12-byte payload is
`b"#212HELLO WORLD!"` → `b"HELLO WORLD!"`. -/
theorem C2_block_reader_framing (nb : Nat) (lenbytes payload rest : List Nat)
    (hlen : lenbytes.length = nb) (h1 : 1 ≤ nb) (h9 : nb ≤ 9)
    (hdig : ∀ b ∈ lenbytes, 48 ≤ b ∧ b ≤ 57)
    (hval : lenbytes.foldl (fun a b => a * 10 + (b - 48)) 0 = payload.length) :
    scpi_recv_block (35 :: (48 + nb) :: (lenbytes ++ (payload ++ rest))) =
      .ok (payload, rest) ∧
    scpi_recv_block (strBytes "#212HELLO WORLD!") =
      .ok (strBytes "HELLO WORLD!", []) := by
  refine ⟨?_, by rfl⟩
  have hd : intOfBytes? [48 + nb] = some nb := by
    interval_cases nb <;> decide
  have hlb : intOfBytes? lenbytes = some payload.length := by
    unfold intOfBytes?
    have hne : lenbytes.isEmpty = false := by
      cases lenbytes with
      | nil => simp at hlen; omega
      | cons a l => rfl
    have hall : lenbytes.all (fun b => 48 ≤ b && b ≤ 57) = true := by
      simp only [List.all_eq_true, Bool.and_eq_true, decide_eq_true_eq]
      exact hdig
    simp [hne, hall, hval]
  unfold scpi_recv_block readN
  simp only [List.take_succ_cons, List.take_zero, List.drop_succ_cons,
    List.drop_zero, hd, List.take_left' hlen, List.drop_left' hlen, hlb]
  have hne : ¬([35] ≠ [35]) := by simp
  rw [if_neg hne]
  have hlen3 : ¬((payload ++ rest).length < payload.length) := by
    simp [List.length_append]
  rw [if_neg hlen3, List.take_left' rfl, List.drop_left' rfl]

/-- Witness for C2 (amended) at the frame `#15HELLO`: one length digit `5`,
payload `HELLO`, nothing beyond. -/
theorem C2_witness :
    scpi_recv_block (35 :: (48 + 1) :: (([53] : List Nat) ++ (strBytes "HELLO" ++ []))) =
      .ok (strBytes "HELLO", []) :=
  (C2_block_reader_framing 1 [53] (strBytes "HELLO") [] (by decide) (by decide)
    (by decide) (by decide) (by decide)).1

/-- C1: in continuous mode every non-terminating cycle appends exactly one
sample line (first conjunct), and a cycle whose measurement, position and
bearing sub-queries all raise or return unparsable text still appends exactly
one line whose power field is the `"nan"` token, whose bearing field is the
absent-bearing token and whose position fields are empty; the cycle body is a
total function, so no exception escapes it. -/
theorem C1_continuous_cycle_always_one_line :
    (∀ (e : ContEnv) (rest : List ContEnv), e.stopSet = false → e.fileExists = true →
      (run_continuous (e :: rest)).1 = continuous_cycle e :: (run_continuous rest).1) ∧
    (∀ e : ContEnv,
      extraer_primer_float (e.meas.getD "") = none →
      parse_gps_data (e.gps.getD "") = (none, none) →
      extraer_primer_float (e.comp.getD "") = none →
      continuous_cycle e = e.fecha ++ "," ++ e.hora ++ ",nan,no directivo,,") := by
  constructor
  · intro e rest hstop hfile
    rw [run_continuous_cons, hstop, hfile]
    simp
  · intro e hm hg hc
    unfold continuous_cycle
    rw [hm, hg, hc]
    refine String.ext ?_
    simp [continuous_fields, String.intercalate, String.intercalate.go,
      String.data_append, List.append_assoc]

/-- Witness for C1: a one-cycle run with every sub-query raising appends the
single all-absent line. -/
theorem C1_witness :
    (run_continuous [⟨false, true, "2024-01-01", "12:00:00", none, none, none⟩]).1 =
      [continuous_cycle ⟨false, true, "2024-01-01", "12:00:00", none, none, none⟩] ∧
    continuous_cycle ⟨false, true, "2024-01-01", "12:00:00", none, none, none⟩ =
      "2024-01-01" ++ "," ++ "12:00:00" ++ ",nan,no directivo,," := by
  constructor
  · have h := C1_continuous_cycle_always_one_line.1
      ⟨false, true, "2024-01-01", "12:00:00", none, none, none⟩ [] rfl rfl
    simpa using h
  · exact C1_continuous_cycle_always_one_line.2
      ⟨false, true, "2024-01-01", "12:00:00", none, none, none⟩
      (by decide) (by decide) (by decide)

/-- C4 counterexample: a deletion of `medicion360.txt` observed during the
initial position-fix wait does not terminate the run — the header write
recreates the file and the acquisition loop then appends a sweep sample
(here one line, with the loop still running), contrary to the claim that
such a deletion terminates the acquisition loop within one cycle. -/
theorem C4_counterexample :
    (sweep_run [⟨false, false, none, false⟩]
        [⟨false, true, some "85.3", some "120.0"⟩]).2 =
      (["120.0,-21.70"], .envExhausted) ∧
    (["120.0,-21.70"] : List String) ≠ [] := by
  exact ⟨by decide, by decide⟩

/-- C4 (amended): deleting the destination log file terminates the
continuous-mode loop and the sweep-mode acquisition loop at the very cycle
that observes the deletion, without raising: the cycles before it each
contribute their line, the deleting cycle contributes nothing, later
environments are never consumed, and the disposition is the clean
file-deleted stop.  (A deletion during sweep mode's initial position-fix wait
only ends the wait, per the counterexample.) -/
theorem C4_file_deletion_stops_loops :
    (∀ (pre : List ContEnv) (e : ContEnv) (rest : List ContEnv),
      (∀ x ∈ pre, x.stopSet = false ∧ x.fileExists = true) →
      e.stopSet = false → e.fileExists = false →
      run_continuous (pre ++ e :: rest) = (pre.map continuous_cycle, .fileDeleted)) ∧
    (∀ (pre : List SweepEnv) (e : SweepEnv) (rest : List SweepEnv),
      (∀ x ∈ pre, x.stopSet = false ∧ x.fileExists = true) →
      e.stopSet = false → e.fileExists = false →
      sweep_loop (pre ++ e :: rest) =
        (pre.filterMap (fun x => sweep_cycle (x.meas.getD "") (x.comp.getD "")),
         .fileDeleted)) := by
  constructor
  · intro pre e rest hpre hstop hfile
    induction pre with
    | nil =>
        rw [List.nil_append, run_continuous_cons, hstop, hfile]
        simp
    | cons x xs ih =>
        have hx := hpre x (by simp)
        have hxs : ∀ y ∈ xs, y.stopSet = false ∧ y.fileExists = true := by
          intro y hy; exact hpre y (by simp [hy])
        rw [List.cons_append, run_continuous_cons, hx.1, hx.2, ih hxs]
        simp
  · intro pre e rest hpre hstop hfile
    induction pre with
    | nil =>
        rw [List.nil_append, sweep_loop_cons, hstop, hfile]
        simp
    | cons x xs ih =>
        have hx := hpre x (by simp)
        have hxs : ∀ y ∈ xs, y.stopSet = false ∧ y.fileExists = true := by
          intro y hy; exact hpre y (by simp [hy])
        rw [List.cons_append, sweep_loop_cons, hx.1, hx.2, ih hxs]
        cases h : sweep_cycle (x.meas.getD "") (x.comp.getD "") <;>
          simp [List.filterMap_cons, h]

/-- Witness for C4 (amended): one-element runs that observe the deletion at
their first cycle stop immediately with no lines, in both modes. -/
theorem C4_witness :
    run_continuous [⟨false, false, "d", "t", none, none, none⟩] =
      ([], .fileDeleted) ∧
    sweep_loop [⟨false, false, none, none⟩] = ([], .fileDeleted) := by
  constructor
  · have h := C4_file_deletion_stops_loops.1 []
      ⟨false, false, "d", "t", none, none, none⟩ [] (by simp) rfl rfl
    simpa using h
  · have h := C4_file_deletion_stops_loops.2 []
      ⟨false, false, none, none⟩ [] (by simp) rfl rfl
    simpa using h

/-- C5: a sweep-mode cycle appends its one `bearing,power` line — bearing at
one decimal, power at two decimals with dBm = parsed dBµV − 107 — exactly
when both the bearing and the power reading parse; otherwise it appends
nothing (no placeholder row). -/
theorem C5_sweep_cycle_both_or_nothing (m c : String) :
    (∀ a v, extraer_primer_float c = some a → extraer_primer_float m = some v →
      sweep_cycle m c = some (fmtFixed a 1 ++ "," ++ fmtFixed (v - 107) 2)) ∧
    ((sweep_cycle m c).isSome ↔
      (extraer_primer_float m).isSome ∧ (extraer_primer_float c).isSome) := by
  constructor
  · intro a v hc hm
    unfold sweep_cycle
    rw [hc, hm]
    show some (fmtFixed a 1 ++ "," ++ fmtFixed (dbuv_to_dbm v) 2) = _
    rw [dbuv_to_dbm, qSub_eq]
  · unfold sweep_cycle
    cases hm : extraer_primer_float m <;> cases hc : extraer_primer_float c <;> simp

/-- Witness for C5: bearing `"120.0"` and level `"85.3"` dBµV produce the
single line `120.0,-21.70`. -/
theorem C5_witness :
    sweep_cycle "85.3" "120.0" =
      some (fmtFixed (mkRat 120 1) 1 ++ "," ++ fmtFixed (mkRat 853 10 - 107) 2) :=
  (C5_sweep_cycle_both_or_nothing "85.3" "120.0").1 (mkRat 120 1) (mkRat 853 10)
    (by decide) (by decide)

/-- C6 counterexample: the absent-bearing token the code writes is the
literal `"no directivo"`, not the spec's literal `non-directive`. -/
theorem C6_counterexample :
    (continuous_fields "d" "t" none none none none).getD 3 "" = "no directivo" ∧
    "no directivo" ≠ "non-directive" := by
  exact ⟨by decide, by decide⟩

/-- C6 (amended): every continuous-mode line has exactly six fields; the
bearing field is a one-decimal numeral or, when the bearing reading is
absent or non-finite (an infinity or NaN — the `math.isfinite` guard of
Pr100.py line 437), the literal token `no directivo` (the code's spelling
of the spec's non-directive token); the power field is always written
literally as a token — the not-a-number token `"nan"` when the reading is
absent — never omitted, so the column count is stable. -/
theorem C6_continuous_line_fields (fecha hora : String) (dbm : Option ℚ)
    (az : Option PyFloat) (lat lon : Option ℚ) :
    (continuous_fields fecha hora dbm az lat lon).length = 6 ∧
    (az = none →
      (continuous_fields fecha hora dbm az lat lon).getD 3 "" = "no directivo") ∧
    (∀ b, az = some (.inf b) →
      (continuous_fields fecha hora dbm az lat lon).getD 3 "" = "no directivo") ∧
    (az = some .nan →
      (continuous_fields fecha hora dbm az lat lon).getD 3 "" = "no directivo") ∧
    (∀ a, az = some (.fin a) →
      (continuous_fields fecha hora dbm az lat lon).getD 3 "" = fmtFixed a 1) ∧
    (dbm = none →
      (continuous_fields fecha hora dbm az lat lon).getD 2 "" = "nan") ∧
    (∀ q, dbm = some q →
      (continuous_fields fecha hora dbm az lat lon).getD 2 "" = float_repr q) := by
  refine ⟨rfl, ?_, ?_, ?_, ?_, ?_, ?_⟩
  · intro h; subst h; rfl
  · intro b h; subst h; rfl
  · intro h; subst h; rfl
  · intro a h; subst h; rfl
  · intro h; subst h; rfl
  · intro q h; subst h; rfl

/-- Witness for C6 (amended): the absent and the non-finite bearing both
render the `no directivo` token, the absent power renders `"nan"`. -/
theorem C6_witness :
    (continuous_fields "d" "t" none none none none).length = 6 ∧
    (continuous_fields "d" "t" none none none none).getD 3 "" = "no directivo" ∧
    (continuous_fields "d" "t" none (some (.inf false)) none none).getD 3 "" =
      "no directivo" ∧
    (continuous_fields "d" "t" none none none none).getD 2 "" = "nan" := by
  obtain ⟨h1, h2, -, -, -, h6, -⟩ :=
    C6_continuous_line_fields "d" "t" none none none none
  obtain ⟨-, -, h3, -, -, -, -⟩ :=
    C6_continuous_line_fields "d" "t" none (some (.inf false)) none none
  exact ⟨h1, h2 rfl, h3 false rfl, h6 rfl⟩

/-- C3: whenever the position response decodes (the hemisphere markers and
six DMS components extract) and the response is a valid DMS record — the
unsigned DMS sums within 90° for latitude and 180° for longitude —
`parse_gps_data` returns a latitude in `[-90, 90]` and a longitude in
`[-180, 180]` after hemisphere adjustment; and on the spec's example
response it returns latitude `17326033/360000 ≈ 48.1279` and longitude
`4180742/360000 ≈ 11.6132`. -/
theorem C3_parse_position_ranges :
    (∀ (s : String) (hns : String) (d1 m1 s1 : ℚ) (hew : String) (d2 m2 s2 : ℚ),
      gps_raw (stripParts s) = some ⟨hns, d1, m1, s1, hew, d2, m2, s2⟩ →
      0 ≤ dms d1 m1 s1 → dms d1 m1 s1 ≤ 90 →
      0 ≤ dms d2 m2 s2 → dms d2 m2 s2 ≤ 180 →
      ∃ la lo, parse_gps_data s = (some la, some lo) ∧
        -90 ≤ la ∧ la ≤ 90 ∧ -180 ≤ lo ∧ lo ≤ 180) ∧
    (parse_gps_data gpsExampleResponse =
        (some (17326033/360000), some (4180742/360000)) ∧
      |(17326033 : ℚ)/360000 - 481279/10000| < 1/1000 ∧
      |(4180742 : ℚ)/360000 - 116132/10000| < 1/1000) := by
  constructor
  · intro s hns d1 m1 s1 hew d2 m2 s2 hraw h0lat hlat h0lon hlon
    have hs : s ≠ "" := by
      intro hh
      rw [hh, show gps_raw (stripParts "") = none from by decide] at hraw
      exact Option.noConfusion hraw
    unfold parse_gps_data
    rw [if_neg hs]
    unfold parse_gps_parts
    rw [hraw]
    refine ⟨_, _, rfl, ?_, ?_, ?_, ?_⟩
    · cases h : hns == "S" <;> simp [h, qNeg_eq] <;> linarith
    · cases h : hns == "S" <;> simp [h, qNeg_eq] <;> linarith
    · cases h : hew == "W" <;> simp [h, qNeg_eq] <;> linarith
    · cases h : hew == "W" <;> simp [h, qNeg_eq] <;> linarith
  · have e1 : (17326033 : ℚ)/360000 = mkRat 17326033 360000 := by
      rw [Rat.mkRat_eq_div]; norm_num
    have e2 : (4180742 : ℚ)/360000 = mkRat 4180742 360000 := by
      rw [Rat.mkRat_eq_div]; norm_num
    refine ⟨?_, ?_, ?_⟩
    · rw [e1, e2]; decide
    · rw [abs_sub_lt_iff]; constructor <;> norm_num
    · rw [abs_sub_lt_iff]; constructor <;> norm_num

/-- Witness for C3 at the example response: the components extract, the DMS
sums are in range, and the decoded coordinates satisfy the bounds. -/
theorem C3_witness :
    gps_raw (stripParts gpsExampleResponse) =
      some ⟨"N", 48, 7, mkRat 4033 100, "E", 11, 36, mkRat 4742 100⟩ ∧
    ∃ la lo, parse_gps_data gpsExampleResponse = (some la, some lo) ∧
      -90 ≤ la ∧ la ≤ 90 ∧ -180 ≤ lo ∧ lo ≤ 180 := by
  refine ⟨by decide, ?_⟩
  exact C3_parse_position_ranges.1 gpsExampleResponse "N" 48 7 (mkRat 4033 100)
    "E" 11 36 (mkRat 4742 100) (by decide) (by decide) (by decide) (by decide)
    (by decide)

/-- C8: `parse_gps_data` never returns a partial result.  With no `N`/`S`
token among the stripped parts, or no `E`/`W` token at or after the
latitude's fourth following token, it returns `(none, none)`; likewise when
the three tokens after either marker run past the end of the record or any
of them fails to parse as a float; and in general the result is either
`(none, none)` or a full `(some, some)` pair. -/
theorem C8_parse_position_no_partial :
    (∀ s : String, (stripParts s).all (fun p => !(isNS p)) = true →
      parse_gps_data s = (none, none)) ∧
    (∀ (s : String) (i : Nat), findIdxFrom isNS (stripParts s) 0 = some i →
      ((stripParts s).drop (i + 4)).all (fun p => !(isEW p)) = true →
      parse_gps_data s = (none, none)) ∧
    (∀ (s : String) (i : Nat), findIdxFrom isNS (stripParts s) 0 = some i →
      ((stripParts s).length ≤ i + 3 ∨
        pyFloat? ((stripParts s).getD (i + 1) "") = none ∨
        pyFloat? ((stripParts s).getD (i + 2) "") = none ∨
        pyFloat? ((stripParts s).getD (i + 3) "") = none) →
      parse_gps_data s = (none, none)) ∧
    (∀ (s : String) (i j : Nat), findIdxFrom isNS (stripParts s) 0 = some i →
      findIdxFrom isEW (stripParts s) (i + 4) = some j →
      ((stripParts s).length ≤ j + 3 ∨
        pyFloat? ((stripParts s).getD (j + 1) "") = none ∨
        pyFloat? ((stripParts s).getD (j + 2) "") = none ∨
        pyFloat? ((stripParts s).getD (j + 3) "") = none) →
      parse_gps_data s = (none, none)) ∧
    (∀ s : String, parse_gps_data s = (none, none) ∨
      ∃ la lo, parse_gps_data s = (some la, some lo)) := by
  refine ⟨?_, ?_, ?_, ?_, ?_⟩
  · intro s hall
    apply parse_gps_data_of_raw_none
    unfold gps_raw
    rw [findIdxFrom_eq_none isNS _ 0 (by rw [List.drop_zero]; exact hall)]
  · intro s i hfind hall
    apply parse_gps_data_of_raw_none
    unfold gps_raw
    simp only [hfind]
    cases htrip : gps_triplet (stripParts s) i with
    | none => rfl
    | some t =>
        obtain ⟨d1, m1, s1⟩ := t
        simp only [findIdxFrom_eq_none isEW _ (i + 4) hall]
  · intro s i hfind hbad
    apply parse_gps_data_of_raw_none
    unfold gps_raw
    simp only [hfind, gps_triplet_eq_none (stripParts s) i hbad]
  · intro s i j hNS hEW hbad
    apply parse_gps_data_of_raw_none
    unfold gps_raw
    simp only [hNS]
    cases htrip : gps_triplet (stripParts s) i with
    | none => rfl
    | some t =>
        obtain ⟨d1, m1, s1⟩ := t
        simp only [hEW, gps_triplet_eq_none (stripParts s) j hbad]
  · intro s
    unfold parse_gps_data
    split
    · exact Or.inl rfl
    · unfold parse_gps_parts
      cases h : gps_raw (stripParts s) with
      | none => exact Or.inl rfl
      | some t => exact Or.inr ⟨_, _, rfl⟩

/-- Witness for C8: `"hello,world"` has no `N`/`S` token and parses to
`(none, none)`. -/
theorem C8_witness :
    (stripParts "hello,world").all (fun p => !(isNS p)) = true ∧
    parse_gps_data "hello,world" = (none, none) :=
  ⟨by decide, C8_parse_position_no_partial.1 "hello,world" (by decide)⟩

end TFG
